import Mathlib

/-!
Verification of the PersonalFinanceHub transaction pipeline.

This file gives a shallow embedding, in Lean 4, of the parts of the
repository that the specification talks about:

* the vendor-pattern table and lookup (src/vendor_mapping.py),
* the category-resolution cascade (src/ai_helper.py),
* the Chase statement parser and statement-year heuristic
  (src/chase_statement_reader.py, src/pdf_statement_reader.py),
* the persistence layer with its get-or-create reference caches and
  conflict-ignoring insert (src/add_transactions.py),
* the per-issuer amount normalization steps (src/chase_transactions.py,
  src/amex_transactions.py, src/apple_transactions.py,
  src/citi_transactions.py),
* the file-reading / file-deletion orchestration
  (src/add_transactions.py, src/chase_transactions.py, src/main.py).

Python strings are modelled as Lean `String` (operated on through their
character lists, so that everything evaluates inside the kernel), decimal
amounts as `ℚ` (every literal that appears in the claims is exactly
representable), the PostgreSQL store as an explicit `Database` state, and
the OpenAI classifier as an injected oracle of type
`String → Except String String` (an API error is `Except.error`).
-/

/-! ## String utilities mirroring the Python string operations used -/

/-- Characters treated as whitespace by Python `str.strip`, `str.split()`
and the regex class `\s` (ASCII range, which is all the inputs use). -/
def isPySpace (c : Char) : Bool :=
  c == ' ' || c == '\t' || c == '\n' || c == '\r' || c == '\x0b' || c == '\x0c'

/-- Python `str.lower` (ASCII inputs). -/
def pyLower (s : String) : String := ⟨s.data.map Char.toLower⟩

/-- Python `str.strip()`. -/
def pyStrip (s : String) : String :=
  ⟨((s.data.dropWhile isPySpace).reverse.dropWhile isPySpace).reverse⟩

/-- `needle` is a contiguous sublist of `hay`, i.e. Python `needle in hay`
on strings; `charsPre` is the leading-match test it iterates. -/
def charsPre : List Char → List Char → Bool
  | [], _ => true
  | _ :: _, [] => false
  | a :: as, b :: bs => a == b && charsPre as bs

def charsSub (needle : List Char) : List Char → Bool
  | [] => charsPre needle []
  | b :: bs => charsPre needle (b :: bs) || charsSub needle bs

/-- Python `sub in hay` for strings. -/
def pyContains (hay sub : String) : Bool := charsSub sub.data hay.data

/-- Python `str.replace(c, "")` for a single character `c`. -/
def pyRemoveChar (c : Char) (s : String) : String :=
  ⟨s.data.filter (fun x => x != c)⟩

def splitWsAux : List Char → List Char → List (List Char)
  | [], acc => if acc.isEmpty then [] else [acc.reverse]
  | c :: t, acc =>
    if isPySpace c then
      if acc.isEmpty then splitWsAux t [] else acc.reverse :: splitWsAux t []
    else splitWsAux t (c :: acc)

/-- Python `str.split()` (split on whitespace runs, dropping empties). -/
def pySplitWs (s : String) : List String := (splitWsAux s.data []).map (fun l => ⟨l⟩)

def splitLinesAux : List Char → List Char → List (List Char)
  | [], acc => [acc.reverse]
  | c :: t, acc =>
    if c == '\n' then acc.reverse :: splitLinesAux t [] else splitLinesAux t (c :: acc)

/-- Python `text.split('\n')`. -/
def pySplitLines (s : String) : List String := (splitLinesAux s.data []).map (fun l => ⟨l⟩)

/-- Python `' '.join(parts)`. -/
def joinSpace : List String → String
  | [] => ""
  | [s] => s
  | s :: t => s ++ " " ++ joinSpace t

def digitsToNat (l : List Char) : Nat :=
  l.foldl (fun n c => n * 10 + (c.toNat - 48)) 0

def natToCharsAux : Nat → Nat → List Char
  | 0, _ => []
  | f + 1, n => if n == 0 then [] else natToCharsAux f (n / 10) ++ [Char.ofNat (48 + n % 10)]

/-- Decimal rendering of a natural number (Python `str(n)` on a `Nat`). -/
def natToStr (n : Nat) : String := if n == 0 then "0" else ⟨natToCharsAux 12 n⟩

/-- Zero-pad a digit string to width 2 (strftime `%m` / `%d`). -/
def pad2 (s : String) : String :=
  if s.data.length < 2 then ⟨List.replicate (2 - s.data.length) '0' ++ s.data⟩ else s

/-! ## Vendor-pattern table (src/vendor_mapping.py)

`VENDOR_CATEGORY_MAP` transcribes the Python dict literal in its insertion
order; keys keep the exact spelling of the source (some are not lowercase). -/

def VENDOR_CATEGORY_MAP : List (String × String) := [
  ("global bike", "Hobby"),
  ("MBO", "Hobby"),
  ("rapha", "Hobby"),
  ("specialized", "Hobby"),
  ("payment", "Payments"),
  ("paypal", "Payments"),
  ("venmo", "Payments"),
  ("stripe", "Payments"),
  ("square", "Payments"),
  ("whole foods", "Groceries"),
  ("trader joe", "Groceries"),
  ("safeway", "Groceries"),
  ("kroger", "Groceries"),
  ("sprouts", "Groceries"),
  ("COSTCO WHSE", "Groceries"),
  ("costco.com", "Groceries"),
  ("grocery", "Groceries"),
  ("supermarket", "Groceries"),
  ("Los Altos Ranch Market", "Groceries"),
  ("restaurant", "Dining"),
  ("cafe", "Dining"),
  ("coffee", "Dining"),
  ("burger", "Dining"),
  ("pizza", "Dining"),
  ("sushi", "Dining"),
  ("bbq", "Dining"),
  ("diner", "Dining"),
  ("bar", "Dining"),
  ("pub", "Dining"),
  ("movie", "Entertainment"),
  ("cinema", "Entertainment"),
  ("theater", "Entertainment"),
  ("concert", "Entertainment"),
  ("game", "Entertainment"),
  ("electric", "Utilities"),
  ("water", "Utilities"),
  ("gas company", "Utilities"),
  ("internet", "Utilities"),
  ("phone", "Utilities"),
  ("comcast", "Utilities"),
  ("verizon", "Utilities"),
  ("at&t", "Utilities"),
  ("t-mobile", "Utilities"),
  ("VISIBLE 866", "Utilities"),
  ("CITY OF CHANDLER", "Utilities"),
  ("COX PHOENIX", "Utilities"),
  ("uber", "Transportation"),
  ("lyft", "Transportation"),
  ("taxi", "Transportation"),
  ("airline", "Transportation"),
  ("hotel", "Transportation"),
  ("parking", "Transportation"),
  ("transit", "Transportation"),
  ("COSTCO GAS", "Transportation"),
  ("amazon", "Shopping"),
  ("walmart", "Shopping"),
  ("target", "Shopping"),
  ("bestbuy", "Shopping"),
  ("mall", "Shopping"),
  ("store", "Shopping"),
  ("pharmacy", "Healthcare"),
  ("doctor", "Healthcare"),
  ("hospital", "Healthcare"),
  ("clinic", "Healthcare"),
  ("cvs", "Healthcare"),
  ("walgreens", "Healthcare"),
  ("gym", "Healthcare"),
  ("dog", "Dog Care"),
  ("vet", "Dog Care"),
  ("pet", "Dog Care"),
  ("petco", "Dog Care"),
  ("petsmart", "Dog Care"),
  ("subscription", "Subscriptions"),
  ("subscription service", "Subscriptions"),
  ("spotify", "Subscriptions"),
  ("YouTubePremium", "Subscriptions"),
  ("Openai *chatgpt", "Subscriptions"),
  ("Claude.Ai Subscription", "Subscriptions"),
  ("netflix", "Subscriptions"),
  ("hulu", "Subscriptions"),
  ("disney", "Subscriptions"),
  ("refund", "Refunds & Returns"),
  ("return", "Refunds & Returns"),
  ("credit", "Refunds & Returns")]

/-- `get_category_from_vendor` (src/vendor_mapping.py): exact dict lookup
of the lowercased merchant name first, then first substring match in table
order; `none` when nothing matches. -/
def get_category_from_vendor (merchant_name : String) : Option String :=
  let merchant_lower := pyLower merchant_name
  match VENDOR_CATEGORY_MAP.find? (fun p => p.1 == merchant_lower) with
  | some p => some p.2
  | none =>
    (VENDOR_CATEGORY_MAP.find? (fun p => pyContains merchant_lower (pyLower p.1))).map
      (fun p => p.2)

/-! ## AI classifier wrapper (src/ai_helper.py)

The LLM is injected as `llm : Option (String → Except String String)`:
`none` is an unconfigured client (`self.llm` falsy), `Except.error` is an
API exception, `Except.ok` is the raw response text. -/

/-- `AIHelper.guess_category_openai`. -/
def guess_category_openai (llm : Option (String → Except String String))
    (merchant_name : String) (categories : List String) : String :=
  match llm with
  | none => "Other"
  | some invoke =>
    if categories.isEmpty then "Other"
    else
      match invoke merchant_name with
      | Except.error _ => "Other"
      | Except.ok content =>
        let category := pyStrip content
        if category ∈ categories then category else "Other"

/-- One row of the DataFrame handed to `AIHelper.add_category`: the
merchant description and the current value of the category column. -/
structure CRow where
  merchant_name : String
  category : String
deriving DecidableEq

/-- First tier-1 rule of `add_category`: merchant contains "return" or
"refund" (case-insensitive). -/
def tier1_refund (r : CRow) : CRow :=
  if pyContains (pyLower r.merchant_name) "return"
      || pyContains (pyLower r.merchant_name) "refund" then
    { r with category := "Refunds & Returns" }
  else r

/-- Second tier-1 rule of `add_category`: merchant contains "payment". -/
def tier1_payment (r : CRow) : CRow :=
  if pyContains (pyLower r.merchant_name) "payment" then
    { r with category := "Payments" }
  else r

/-- The AI pass of `add_category`: for every row still labelled "Other",
invoke the classifier; keep its answer unless it is "Other".  Also returns
the list of merchants for which the classifier was invoked (the oracle
calls), in row order. -/
def aiPass (llm : Option (String → Except String String)) (cacheKeys : List String) :
    List CRow → List CRow × List String
  | [] => ([], [])
  | r :: rs =>
    let rest := aiPass llm cacheKeys rs
    if r.category == "Other" then
      let g := guess_category_openai llm r.merchant_name cacheKeys
      let r2 := if g != "Other" then { r with category := g } else r
      (r2 :: rest.1, r.merchant_name :: rest.2)
    else (r :: rest.1, rest.2)

/-- `AIHelper.add_category` on rows that already carry a category value
(the function first adds the column filled with "Other" when absent, see
`add_category_no_column`): the two keyword rules are applied row-wise, then
the AI pass runs over every row whose category is still "Other".
`cacheKeys` is `list(category_cache.keys())`, i.e. the lowercased category
names. -/
def add_category (llm : Option (String → Except String String))
    (rows : List CRow) (cacheKeys : List String) : List CRow × List String :=
  aiPass llm cacheKeys (rows.map (fun r => tier1_payment (tier1_refund r)))

/-- `add_category` when the incoming DataFrame has no category column:
the column is created holding "Other" for every row. -/
def add_category_no_column (llm : Option (String → Except String String))
    (merchants : List String) (cacheKeys : List String) : List CRow × List String :=
  add_category llm (merchants.map (fun m => ⟨m, "Other"⟩)) cacheKeys

example : get_category_from_vendor "WHOLE FOODS MARKET" = some "Groceries" := by decide
example : pySplitWs "  a  bb c " = ["a", "bb", "c"] := by decide

/-! ## Date standardization (src/pdf_statement_reader.py)

`PDFStatementReader._standardize_date` tries the strptime formats
`%m/%d/%Y`, `%m/%d/%y`, `%Y-%m-%d`, `%d-%m-%Y`, `%d/%m/%Y` in order and
renders the first hit as `%Y-%m-%d`.  The field parsers below mirror the
regexes CPython strptime compiles for each directive, including their
alternation order (so `%m` is `1[0-2]|0[1-9]|[1-9]`, `%d` is
`3[01]|[12]\d|0[1-9]|[1-9]`, `%Y` is four digits, `%y` is two digits with
the 69-pivot century rule), and the candidate lists are ordered the way
the backtracking engine explores them. -/

def digVal (c : Char) : Nat := c.toNat - 48

/-- Match candidates for strptime `%m` at the head of `l`, as
(value, rest) pairs in regex alternation order. -/
def monthCands (l : List Char) : List (Nat × List Char) :=
  (match l with
   | '1' :: c :: rest =>
     if c == '0' || c == '1' || c == '2' then [(10 + digVal c, rest)] else []
   | _ => []) ++
  (match l with
   | '0' :: c :: rest => if c.isDigit && c != '0' then [(digVal c, rest)] else []
   | _ => []) ++
  (match l with
   | c :: rest => if c.isDigit && c != '0' then [(digVal c, rest)] else []
   | _ => [])

/-- Match candidates for strptime `%d` at the head of `l`. -/
def dayCands (l : List Char) : List (Nat × List Char) :=
  (match l with
   | '3' :: c :: rest => if c == '0' || c == '1' then [(30 + digVal c, rest)] else []
   | _ => []) ++
  (match l with
   | c :: c2 :: rest =>
     if (c == '1' || c == '2') && c2.isDigit then [(10 * digVal c + digVal c2, rest)] else []
   | _ => []) ++
  (match l with
   | '0' :: c :: rest => if c.isDigit && c != '0' then [(digVal c, rest)] else []
   | _ => []) ++
  (match l with
   | c :: rest => if c.isDigit && c != '0' then [(digVal c, rest)] else []
   | _ => [])

/-- strptime `%Y`: exactly four digits. -/
def year4 (l : List Char) : Option (Nat × List Char) :=
  match l with
  | a :: b :: c :: d :: rest =>
    if a.isDigit && b.isDigit && c.isDigit && d.isDigit then
      some (digitsToNat [a, b, c, d], rest)
    else none
  | _ => none

/-- strptime `%y`: exactly two digits, with CPython century inference
(years up to 68 land in the 2000s, the rest in the 1900s). -/
def year2 (l : List Char) : Option (Nat × List Char) :=
  match l with
  | a :: b :: rest =>
    if a.isDigit && b.isDigit then
      let v := digitsToNat [a, b]
      some (if v ≤ 68 then 2000 + v else 1900 + v, rest)
    else none
  | _ => none

def isLeap (y : Nat) : Bool := (y % 4 == 0 && y % 100 != 0) || y % 400 == 0

def daysInMonth (y m : Nat) : Nat :=
  if m == 2 then (if isLeap y then 29 else 28)
  else if m == 4 || m == 6 || m == 9 || m == 11 then 30
  else 31

/-- Validity check performed by the `datetime` constructor after the
strptime regex has matched. -/
def validDate (y m d : Nat) : Bool :=
  decide (1 ≤ y) && decide (1 ≤ m) && decide (m ≤ 12) && decide (1 ≤ d)
    && decide (d ≤ daysInMonth y m)

/-- Month-first format with separator `sep` and year parser `yearP`
(covers `%m/%d/%Y` and `%m/%d/%y`): the first candidate combination that
consumes the whole string is the regex match; the date is then checked by
the `datetime` constructor. -/
def tryFmtMDY (sep : Char) (yearP : List Char → Option (Nat × List Char))
    (l : List Char) : Option (Nat × Nat × Nat) :=
  match (monthCands l).findSome? (fun p =>
      match p.2 with
      | s1 :: r2 =>
        if s1 == sep then
          (dayCands r2).findSome? (fun q =>
            match q.2 with
            | s2 :: r4 =>
              if s2 == sep then
                match yearP r4 with
                | some (y, []) => some (y, p.1, q.1)
                | _ => none
              else none
            | [] => none)
        else none
      | [] => none) with
  | some (y, m, d) => if validDate y m d then some (y, m, d) else none
  | none => none

/-- Day-first format with separator `sep` (covers `%d-%m-%Y` and
`%d/%m/%Y`). -/
def tryFmtDMY (sep : Char) (l : List Char) : Option (Nat × Nat × Nat) :=
  match (dayCands l).findSome? (fun p =>
      match p.2 with
      | s1 :: r2 =>
        if s1 == sep then
          (monthCands r2).findSome? (fun q =>
            match q.2 with
            | s2 :: r4 =>
              if s2 == sep then
                match year4 r4 with
                | some (y, []) => some (y, q.1, p.1)
                | _ => none
              else none
            | [] => none)
        else none
      | [] => none) with
  | some (y, m, d) => if validDate y m d then some (y, m, d) else none
  | none => none

/-- The `%Y-%m-%d` format. -/
def tryFmtYMD (l : List Char) : Option (Nat × Nat × Nat) :=
  match (match year4 l with
    | some (y, '-' :: r2) =>
      (monthCands r2).findSome? (fun q =>
        match q.2 with
        | '-' :: r4 =>
          (dayCands r4).findSome? (fun p =>
            match p.2 with
            | [] => some (y, q.1, p.1)
            | _ => none)
        | _ => none)
    | _ => none) with
  | some (y, m, d) => if validDate y m d then some (y, m, d) else none
  | none => none

/-- Render a parsed date as strftime `%Y-%m-%d`. -/
def fmtYMD (y m d : Nat) : String :=
  natToStr y ++ "-" ++ pad2 (natToStr m) ++ "-" ++ pad2 (natToStr d)

/-- `PDFStatementReader._standardize_date`: `none` models the Python
`None` returned when no format matches (or the input is the string
"nan"). -/
def _standardize_date (date_str : String) : Option String :=
  if pyLower date_str == "nan" then none
  else
    let l := (pyStrip date_str).data
    match tryFmtMDY '/' year4 l with
    | some (y, m, d) => some (fmtYMD y m d)
    | none =>
      match tryFmtMDY '/' year2 l with
      | some (y, m, d) => some (fmtYMD y m d)
      | none =>
        match tryFmtYMD l with
        | some (y, m, d) => some (fmtYMD y m d)
        | none =>
          match tryFmtDMY '-' l with
          | some (y, m, d) => some (fmtYMD y m d)
          | none =>
            match tryFmtDMY '/' l with
            | some (y, m, d) => some (fmtYMD y m d)
            | none => none

example : _standardize_date "12/15/2024" = some "2024-12-15" := by decide

/-! ## Statement-year heuristic (src/chase_statement_reader.py)

`ChaseStatementReader.extract_statement_year` runs
`re.search(r'(\d{1,2}/\d{1,2}/(\d{2}|\d{4}))\s*-\s*(\d{1,2}/\d{1,2}/(\d{2}|\d{4}))', text)`
and reads the year of the closing date from group 4.  The matcher below
reproduces the Python regex engine on exactly this pattern: leftmost
starting position wins, `\d{1,2}` greedily tries two digits before one,
and the alternation `(\d{2}|\d{4})` tries the two-digit branch first. -/

/-- Exactly `n` leading digits. -/
def rxTake (n : Nat) (l : List Char) : Option (List Char × List Char) :=
  let pre := l.take n
  if pre.length == n && pre.all Char.isDigit then some (pre, l.drop n) else none

/-- `\d{1,2}` candidates (rests after the field), greedy order. -/
def rxField (l : List Char) : List (List Char) :=
  (match rxTake 2 l with | some (_, r) => [r] | none => []) ++
  (match rxTake 1 l with | some (_, r) => [r] | none => [])

/-- `(\d{2}|\d{4})` candidates as (captured digits, rest), in alternation
order. -/
def rxYear (l : List Char) : List (List Char × List Char) :=
  (match rxTake 2 l with | some (d, r) => [(d, r)] | none => []) ++
  (match rxTake 4 l with | some (d, r) => [(d, r)] | none => [])

/-- One `\d{1,2}/\d{1,2}/(\d{2}|\d{4})` date: candidates as (year group,
rest) in backtracking order. -/
def rxDate (l : List Char) : List (List Char × List Char) :=
  (rxField l).flatMap (fun r1 =>
    match r1 with
    | '/' :: r2 =>
      (rxField r2).flatMap (fun r3 =>
        match r3 with
        | '/' :: r4 => rxYear r4
        | _ => [])
    | _ => [])

/-- `\s*-\s*`: both stars are effectively possessive here because a
whitespace character can never satisfy the following `-`. -/
def rxSep (l : List Char) : Option (List Char) :=
  match l.dropWhile isPySpace with
  | '-' :: r => some (r.dropWhile isPySpace)
  | _ => none

/-- Try the whole pattern anchored at the head of `l`; the result is the
group-4 capture (the closing date's year digits). -/
def rxMatchAt (l : List Char) : Option (List Char) :=
  (rxDate l).findSome? (fun p =>
    match rxSep p.2 with
    | some r2 => ((rxDate r2).head?).map (fun q => q.1)
    | none => none)

/-- `re.search`: scan starting positions left to right. -/
def rxSearch : List Char → Option (List Char)
  | [] => none
  | c :: t =>
    match rxMatchAt (c :: t) with
    | some y => some y
    | none => rxSearch t

/-- `ChaseStatementReader.extract_statement_year`.  `current_year` stands
for `datetime.now().year`, the documented fallback when no date-range
pattern is found (or page extraction fails). -/
def extract_statement_year (text : String) (current_year : Nat) : Nat :=
  match rxSearch text.data with
  | some year_str =>
    if year_str.length == 2 then 2000 + digitsToNat year_str else digitsToNat year_str
  | none => current_year

example : extract_statement_year "Opening 11/16/25 - 12/15/25" 2024 = 2025 := by decide
example : extract_statement_year "Statement Period: 11/16/2025 - 12/15/2025" 2024 = 2020 := by
  decide

/-! ## Statement transaction parser (src/chase_statement_reader.py) -/

/-- One record emitted by `ChaseStatementReader.extract_transactions`.
Amounts are the exact decimals matched by `-?\d+\.\d{2}` (modelled in ℚ);
`date` is `None` when `_standardize_date` failed. -/
structure StmtTx where
  date : Option String
  description : String
  amount : ℚ
  bank : String
deriving DecidableEq

/-- `re.match(r'^\d{2}/\d{2}', line)`. -/
def startsMMDD : List Char → Bool
  | a :: b :: c :: d :: e :: _ =>
    a.isDigit && b.isDigit && c == '/' && d.isDigit && e.isDigit
  | _ => false

/-- Body of `re.match(r'^-?\d+\.\d{2}$', amount)` after the optional
sign. -/
def amountBody (l : List Char) : Bool :=
  let ds := l.takeWhile Char.isDigit
  let rest := l.dropWhile Char.isDigit
  !ds.isEmpty &&
    (match rest with
     | '.' :: a :: b :: [] => a.isDigit && b.isDigit
     | _ => false)

def amount_format_ok : List Char → Bool
  | '-' :: rest => amountBody rest
  | l => amountBody l

def parseAmountBody (l : List Char) : ℚ :=
  let ds := l.takeWhile Char.isDigit
  let rest := l.dropWhile Char.isDigit
  match rest with
  | '.' :: a :: b :: _ => mkRat (digitsToNat ds * 100 + digitsToNat [a, b]) 100
  | _ => (digitsToNat ds : ℚ)

/-- `float(amount)` on a string that matched `-?\d+\.\d{2}` (all such
two-decimal literals are modelled exactly in ℚ). -/
def parseAmountQ : List Char → ℚ
  | '-' :: rest => -(parseAmountBody rest)
  | l => parseAmountBody l

/-- The per-line body of `ChaseStatementReader.extract_transactions`:
skip blank / header lines, require a leading MM/DD token, split on
whitespace, take the last token (minus `$` and `,`) as the amount
candidate, keep the line only when it matches `-?\d+\.\d{2}`, join the
middle tokens as the description, and attach the statement year to the
bare MM/DD date before standardizing it. -/
def processLine (statement_year : Nat) (line : String) : Option StmtTx :=
  if (pyStrip line).data.isEmpty || pyContains line "ACCOUNT ACTIVITY"
      || pyContains line "Date of" then none
  else
    let st := pyStrip line
    if startsMMDD st.data then
      let parts := pySplitWs st
      if 3 ≤ parts.length then
        match parts with
        | pDate :: restParts =>
          match restParts.getLast? with
          | some lastTok =>
            let amtStr := pyRemoveChar ',' (pyRemoveChar '$' lastTok)
            if amount_format_ok amtStr.data then
              some { date := _standardize_date (pDate ++ "/" ++ natToStr statement_year),
                     description := joinSpace restParts.dropLast,
                     amount := parseAmountQ amtStr.data,
                     bank := "Chase" }
            else none
          | none => none
        | [] => none
      else none
    else none

/-- `extract_transactions` restricted to the text of one page: the line
scanner applied to every line (the subsequent cross-page sort by date is
stable and does not alter a single-record result). -/
def extract_transactions_text (statement_year : Nat) (text : String) : List StmtTx :=
  (pySplitLines text).filterMap (processLine statement_year)

example :
    extract_transactions_text 2024 "12/15 STARBUCKS COFFEE 4.75\nTOTAL DUE 500.00"
      = [{ date := some "2024-12-15", description := "STARBUCKS COFFEE",
           amount := mkRat 475 100, bank := "Chase" }] := by decide

/-! ## Persistence layer (src/add_transactions.py)

The PostgreSQL store is an explicit state.  Reference tables hold
(id, name) rows in insertion order; the read-through caches the code
builds with a dict comprehension over the rows are modelled by
`cacheLookup` (last row with the given lowercased name wins, matching the
dict overwrite semantics), and each `_get_or_create_*` method keeps its
cache and its table in lock-step, so the cache is represented by the table
itself.  Storage errors are injected through `failAt`: the primitive SQL
statements executed on the connection are numbered, and statement number
`failAt` raises `psycopg2.Error`.  The connection's transaction is the
pending `Database` threaded through `Conn`; `COMMIT` makes it the result,
`ROLLBACK` (the `except` branch) returns the original store. -/

/-- An input transaction dict as produced by `prepare_data_for_db`. -/
structure TransactionIn where
  amount : ℚ
  merchant_name : String
  category : String
  person : String
  transaction_date : String
  account_type : String
deriving DecidableEq

/-- A stored row of `budget_app.transactions` (minus its surrogate id). -/
structure TransactionRow where
  amount : ℚ
  merchant_name : String
  category_id : Nat
  person_id : Nat
  transaction_date : String
  account_type_id : Nat
deriving DecidableEq

structure Database where
  spending_categories : List (Nat × String)
  persons : List (Nat × String)
  account_type : List (Nat × String)
  transactions : List TransactionRow
  next_category_id : Nat
  next_person_id : Nat
  next_account_type_id : Nat
deriving DecidableEq

def emptyDB : Database := ⟨[], [], [], [], 0, 0, 0⟩

/-- The dict `{name.lower(): id for id, name in rows}` looked up at `key`:
the last row whose lowercased name is `key` wins. -/
def cacheLookup (tbl : List (Nat × String)) (key : String) : Option Nat :=
  (tbl.reverse.find? (fun p => pyLower p.2 == key)).map (fun p => p.1)

/-- The connection state during one `add_to_database` call: the pending
(uncommitted) store and the number of SQL statements executed so far. -/
structure Conn where
  db : Database
  ops : Nat
deriving DecidableEq

/-- Execute one SQL statement whose effect on the pending store is `eff`;
statement number `failAt` raises. -/
def execOp (failAt : Option Nat) (eff : Database → Database) (c : Conn) :
    Except String Conn :=
  if failAt == some c.ops then Except.error "constraint violation"
  else Except.ok ⟨eff c.db, c.ops + 1⟩

/-- `AddTransactions._get_or_create_category`: cache hit returns the
cached id and executes nothing; a miss executes
`INSERT ... RETURNING id` and caches the fresh id. -/
def get_or_create_category (failAt : Option Nat) (category : String) (c : Conn) :
    Except String (Nat × Conn) :=
  match cacheLookup c.db.spending_categories (pyLower category) with
  | some i => Except.ok (i, c)
  | none =>
    match execOp failAt (fun db =>
        { db with
          spending_categories :=
            db.spending_categories ++ [(c.db.next_category_id, category)],
          next_category_id := c.db.next_category_id + 1 }) c with
    | Except.ok c2 => Except.ok (c.db.next_category_id, c2)
    | Except.error e => Except.error e

/-- `AddTransactions._get_or_create_person`. -/
def get_or_create_person (failAt : Option Nat) (person : String) (c : Conn) :
    Except String (Nat × Conn) :=
  match cacheLookup c.db.persons (pyLower person) with
  | some i => Except.ok (i, c)
  | none =>
    match execOp failAt (fun db =>
        { db with persons := db.persons ++ [(c.db.next_person_id, person)],
                  next_person_id := c.db.next_person_id + 1 }) c with
    | Except.ok c2 => Except.ok (c.db.next_person_id, c2)
    | Except.error e => Except.error e

/-- `AddTransactions._get_or_create_account_type`. -/
def get_or_create_account_type (failAt : Option Nat) (account_type : String) (c : Conn) :
    Except String (Nat × Conn) :=
  match cacheLookup c.db.account_type (pyLower account_type) with
  | some i => Except.ok (i, c)
  | none =>
    match execOp failAt (fun db =>
        { db with
          account_type := db.account_type ++ [(c.db.next_account_type_id, account_type)],
          next_account_type_id := c.db.next_account_type_id + 1 }) c with
    | Except.ok c2 => Except.ok (c.db.next_account_type_id, c2)
    | Except.error e => Except.error e

/-- Modelled from the spec: the effect of
`INSERT INTO budget_app.transactions ... ON CONFLICT ON CONSTRAINT
unique_transaction DO NOTHING`.  The columns of `unique_transaction` are
defined in `database.sql`, which is not part of src/; §6 of the spec fixes
them as UNIQUE(amount, merchant_name, category_id, person_id,
transaction_date, account_type_id), i.e. the whole row as modelled here,
so a conflicting insert leaves the table unchanged. -/
def insert_transaction (row : TransactionRow) (db : Database) : Database :=
  if row ∈ db.transactions then db
  else { db with transactions := db.transactions ++ [row] }

/-- The per-transaction body of the `add_to_database` loop. -/
def process_one (failAt : Option Nat) (t : TransactionIn) (c : Conn) :
    Except String Conn :=
  match get_or_create_category failAt t.category c with
  | Except.error e => Except.error e
  | Except.ok (cid, c1) =>
    match get_or_create_person failAt t.person c1 with
    | Except.error e => Except.error e
    | Except.ok (pid, c2) =>
      match get_or_create_account_type failAt t.account_type c2 with
      | Except.error e => Except.error e
      | Except.ok (aid, c3) =>
        execOp failAt
          (insert_transaction
            ⟨t.amount, t.merchant_name, cid, pid, t.transaction_date, aid⟩) c3

def process_all (failAt : Option Nat) : List TransactionIn → Conn → Except String Conn
  | [], c => Except.ok c
  | t :: ts, c =>
    match process_one failAt t c with
    | Except.error e => Except.error e
    | Except.ok c2 => process_all failAt ts c2

/-- `AddTransactions.add_to_database`: load the three reference caches
(statements 0-2), loop over the batch, then COMMIT and return True; any
`psycopg2.Error` triggers ROLLBACK (the committed store stays as it was)
and re-raises wrapped in `Database insertion error: `. -/
def add_to_database (db : Database) (transactions : List TransactionIn)
    (failAt : Option Nat) : Except String Bool × Database :=
  match (((execOp failAt id ⟨db, 0⟩).bind (execOp failAt id)).bind
      (execOp failAt id)).bind (process_all failAt transactions) with
  | Except.ok c => (Except.ok true, c.db)
  | Except.error e => (Except.error ("Database insertion error: " ++ e), db)

/-- The row an input transaction resolves to, using the reference tables
of `db`, when all three names are present. -/
def resolved_row (db : Database) (t : TransactionIn) : Option TransactionRow :=
  match cacheLookup db.spending_categories (pyLower t.category),
      cacheLookup db.persons (pyLower t.person),
      cacheLookup db.account_type (pyLower t.account_type) with
  | some cid, some pid, some aid =>
    some ⟨t.amount, t.merchant_name, cid, pid, t.transaction_date, aid⟩
  | _, _, _ => none

/-- `t` is stored in `db`: its reference names resolve and the resolved
row is present in the transactions table. -/
def stored (db : Database) (t : TransactionIn) : Prop :=
  ∃ r, resolved_row db t = some r ∧ r ∈ db.transactions

example :
    (add_to_database emptyDB
      [⟨(-10 : ℚ), "COFFEE SHOP", "Dining", "Hector", "2024-01-05", "Chase Card"⟩]
      none).2.transactions
    = [⟨(-10 : ℚ), "COFFEE SHOP", 0, 0, "2024-01-05", 0⟩] := by decide

/-! ## File reading and deletion orchestration
(src/chase_transactions.py `read_files`,
src/add_transactions.py `process_transactions` / `delete_processed_files`,
src/main.py `main`)

`process_transactions` sets `self.processed_files = file_paths`, which
binds the *same* list object, and `read_files` then iterates
`for file_path in file_paths` while calling
`self.processed_files.remove(file_path)` on read failures — i.e. it
mutates the list it is iterating.  The loop below reproduces CPython's
list-iterator semantics exactly: an index advances by one per iteration
and is checked against the current length of the (mutated) list.
Whether a file is readable is the oracle `readOk`; the pandas DataFrame
of a successfully read file is represented by its path, and the pure
`clean_data`/`prepare_data_for_db` steps by an oracle
`prep : List String → List TransactionIn` on the successfully read
paths. -/

instance {ε α : Type} [DecidableEq ε] [DecidableEq α] : DecidableEq (Except ε α) :=
  fun a b =>
    match a, b with
    | Except.error e, Except.error f =>
      if h : e = f then isTrue (by rw [h])
      else isFalse (fun hh => h (by injection hh))
    | Except.error _, Except.ok _ => isFalse (fun hh => Except.noConfusion hh)
    | Except.ok _, Except.error _ => isFalse (fun hh => Except.noConfusion hh)
    | Except.ok x, Except.ok y =>
      if h : x = y then isTrue (by rw [h])
      else isFalse (fun hh => h (by injection hh))

/-- Python `list.remove(x)`: drop the first occurrence of `x`. -/
def pyListRemove (x : String) : List String → List String
  | [] => []
  | y :: t => if y == x then t else y :: pyListRemove x t

/-- The `for file_path in file_paths` loop of `read_files` with the
in-place `remove` on failures.  Arguments: fuel, current iterator index,
current list object (aliased by `processed_files`), accumulated
successfully read files.  Returns (final list object, read successes). -/
def read_files_loop (readOk : String → Bool) :
    Nat → Nat → List String → List String → List String × List String
  | 0, _, files, got => (files, got)
  | fuel + 1, idx, files, got =>
    match files.get? idx with
    | none => (files, got)
    | some f =>
      if readOk f then read_files_loop readOk fuel (idx + 1) files (got ++ [f])
      else read_files_loop readOk fuel (idx + 1) (pyListRemove f files) got

/-- `ChaseTransactions.read_files` as called from `process_transactions`
(so `processed_files` aliases `file_paths`): returns the final state of
the `processed_files` list and either the concatenated data (the list of
successfully read paths) or the `ValueError` raised when nothing was
read. -/
def read_files (readOk : String → Bool) (file_paths : List String) :
    Except String (List String) × List String :=
  let r := read_files_loop readOk (file_paths.length + 1) 0 file_paths []
  if r.2.isEmpty then (Except.error "No valid files were read", r.1)
  else (Except.ok r.2, r.1)

/-- `AddTransactions.process_transactions`: read, clean/prepare, persist,
and delete the `processed_files` only when `add_to_database` returned
True.  Result: (outcome, committed store, files passed to
`delete_processed_files`).  Any exception is re-raised wrapped in
`Transaction processing failed: `. -/
def process_transactions (readOk : String → Bool)
    (prep : List String → List TransactionIn) (db : Database)
    (failAt : Option Nat) (file_paths : List String) :
    Except String Unit × Database × List String :=
  match read_files readOk file_paths with
  | (Except.error e, _) => (Except.error ("Transaction processing failed: " ++ e), db, [])
  | (Except.ok got, procFiles) =>
    match add_to_database db (prep got) failAt with
    | (Except.ok b, db2) =>
      if b then (Except.ok (), db2, procFiles) else (Except.ok (), db2, [])
    | (Except.error e, db2) =>
      (Except.error ("Transaction processing failed: " ++ e), db2, [])

/-- One `if <files>: processor.process_transactions(<files>)` block of
`main`: on success the source's name is appended to the list of completed
sources; an exception aborts the surrounding `try` (modelled with
`Except.error`), carrying the state reached so far. -/
def runSource (name : String) (readOk : String → Bool)
    (prep : List String → List TransactionIn) (files : List String)
    (st : List String × Database) :
    Except (List String × Database) (List String × Database) :=
  if files.isEmpty then Except.ok st
  else
    match process_transactions readOk prep st.2 none files with
    | (Except.ok _, db2, _) => Except.ok (st.1 ++ [name], db2)
    | (Except.error _, db2, _) => Except.error (st.1, db2)

/-- `main` (src/main.py): the Apple, Chase and Amex sources are processed
in order inside one `try`/`except`; the handler only prints, so `main`
returns normally either way.  The result is the list of sources whose
processing completed, plus the final store. -/
def mainModel (readOk : String → Bool)
    (prep : List String → List TransactionIn) (db : Database)
    (apple_files chase_files amex_files : List String) :
    List String × Database :=
  match ((runSource "Apple" readOk prep apple_files ([], db)).bind
      (runSource "Chase" readOk prep chase_files)).bind
      (runSource "Amex" readOk prep amex_files) with
  | Except.ok st => st
  | Except.error st => st

example :
    read_files (fun s => !(s == "fileA")) ["fileA", "fileB", "fileC"]
      = (Except.ok ["fileC"], ["fileB", "fileC"]) := by decide

/-! ## Per-issuer amount normalization (the amount steps of `clean_data`)

Each issuer adapter's `clean_data` applies exactly one transformation to
the numeric amount column. -/

/-- src/chase_transactions.py:
`self.df['amount'] = -1 * pd.to_numeric(self.df['amount'])`. -/
def chase_clean_amount (amount : ℚ) : ℚ := -1 * amount

/-- src/amex_transactions.py:
`self.df['amount'] = pd.to_numeric(self.df['amount'])` — no sign change. -/
def amex_clean_amount (amount : ℚ) : ℚ := amount

/-- src/apple_transactions.py: strip `$`/`,` if the column is strings,
then `pd.to_numeric` — the numeric value is unchanged. -/
def apple_clean_amount (amount : ℚ) : ℚ := amount

/-- src/citi_transactions.py: `Debit` is renamed to `amount`, then
`self.df['amount'] = self.df['amount'].fillna(0) + self.df['Credit'].fillna(0)`
when a `Credit` column exists (`none` models a NaN cell). -/
def citi_clean_amount (debit credit : Option ℚ) : ℚ :=
  debit.getD 0 + credit.getD 0

/-! ## Claim theorems: classifier, amounts, parser -/

/-- C3: for every merchant string and every list of allowed category
names, `guess_category_openai` returns a member of the supplied list or
the sentinel "Other"; an unset client (`llm = none`), an empty category
list, an API error (`Except.error`) and an out-of-list response all fall
to "Other".  The function is total, so no exception reaches the caller. -/
theorem c3_guess_category_sandboxed :
    ∀ (llm : Option (String → Except String String)) (merchant : String)
      (categories : List String),
      guess_category_openai llm merchant categories = "Other"
        ∨ guess_category_openai llm merchant categories ∈ categories := by
  intro llm merchant categories
  unfold guess_category_openai
  split
  · exact Or.inl rfl
  · split
    · exact Or.inl rfl
    · split
      · exact Or.inl rfl
      · next content heq =>
          show (if pyStrip content ∈ categories then pyStrip content else "Other") = "Other"
              ∨ (if pyStrip content ∈ categories then pyStrip content else "Other") ∈ categories
          split
          · next hmem => exact Or.inr hmem
          · exact Or.inl rfl

/-- C4: each issuer adapter's `clean_data` applies its amount
normalization: Chase inverts every sign (`-1 *`), so the issuer-positive
debit 42.50 is stored as -42.50; Amex and Apple pass the numeric value
through unchanged (their exports already carry the stored sign); Citi
merges the Debit and Credit columns by NaN-filled addition. -/
theorem c4_sign_normalization :
    chase_clean_amount (42.5 : ℚ) = -42.5
    ∧ (∀ a : ℚ, chase_clean_amount a = -a)
    ∧ (∀ a : ℚ, amex_clean_amount a = a)
    ∧ (∀ a : ℚ, apple_clean_amount a = a)
    ∧ (∀ d cr : ℚ, citi_clean_amount (some d) (some cr) = d + cr)
    ∧ (∀ d : ℚ, citi_clean_amount (some d) none = d) := by
  refine ⟨by norm_num [chase_clean_amount], fun a => by simp [chase_clean_amount],
    fun a => rfl, fun a => rfl, fun d cr => rfl, fun d => ?_⟩
  simp [citi_clean_amount]

/-- C6: on page text "12/15 STARBUCKS COFFEE 4.75" with reference year
2024 the parser emits exactly one record: date 2024-12-15, description
"STARBUCKS COFFEE", amount 4.75 (= mkRat 475 100); the line
"TOTAL DUE 500.00" has no leading MM/DD token and yields no record. -/
theorem c6_statement_parser_golden :
    extract_transactions_text 2024 "12/15 STARBUCKS COFFEE 4.75\nTOTAL DUE 500.00"
      = [{ date := some "2024-12-15", description := "STARBUCKS COFFEE",
           amount := mkRat 475 100, bank := "Chase" }]
    ∧ processLine 2024 "TOTAL DUE 500.00" = none
    ∧ (mkRat 475 100 : ℚ) = 4.75 := by
  refine ⟨by decide, by decide, ?_⟩
  rw [Rat.mkRat_eq_div]
  norm_num

/-- C7: evaluation of `extract_statement_year` on the code's own
documented examples.  For the four-digit closing year
"... 11/16/2025 - 12/15/2025" the alternation `(\d{2}|\d{4})` captures
only "20" for the closing date (the pattern ends there, so the engine
never needs the 4-digit branch) and the function returns 2000 + 20 =
2020, not 2025 as the claim states; the two-digit form and the
no-pattern fallback behave as claimed. -/
theorem c7_statement_year_eval :
    extract_statement_year "Statement Period: 11/16/2025 - 12/15/2025" 2024 = 2020
    ∧ extract_statement_year "Statement Period: 11/16/2025 - 12/15/2025" 2024 ≠ 2025
    ∧ extract_statement_year "Opening/Closing Date 11/16/25 - 12/15/25" 1999 = 2025
    ∧ extract_statement_year "Page 1 of 3" 2024 = 2024 := by
  exact ⟨by decide, by decide, by decide, by decide⟩

/-! ## Claim theorems: category cascade wiring, file handling -/

/-- C2 (counterexample): the merchant "WHOLE FOODS MARKET" carries no
tier-1 keyword and the vendor-pattern table resolves it (pattern
"whole foods" → "Groceries"), yet `add_category` invokes the AI
classifier for it, and when the classifier yields nothing usable the row
stays "Other" — the vendor-pattern table is never consulted between
tier 1 and the AI fallback. -/
theorem c2_vendor_table_bypassed_counterexample :
    get_category_from_vendor "WHOLE FOODS MARKET" = some "Groceries"
    ∧ (add_category (some (fun _ => Except.ok "Other"))
        [⟨"WHOLE FOODS MARKET", "Other"⟩] ["groceries", "dining"]).2
      = ["WHOLE FOODS MARKET"]
    ∧ (add_category (some (fun _ => Except.ok "Other"))
        [⟨"WHOLE FOODS MARKET", "Other"⟩] ["groceries", "dining"]).1
      = [⟨"WHOLE FOODS MARKET", "Other"⟩] := by
  exact ⟨by decide, by decide, by decide⟩

lemma aiPass_calls (llm : Option (String → Except String String))
    (cacheKeys : List String) :
    ∀ rows : List CRow,
      (aiPass llm cacheKeys rows).2
        = (rows.filter (fun r => r.category == "Other")).map (fun r => r.merchant_name) := by
  intro rows
  induction rows with
  | nil => rfl
  | cons r rs ih =>
    by_cases h : r.category == "Other"
    · simp [aiPass, h, ih]
    · simp [aiPass, h, ih]

/-- C2 (amended): after the tier-1 keyword rules, `add_category` sends
*every* transaction still labelled "Other" straight to the AI classifier
— the classifier call list is exactly the post-tier-1 "Other" rows, so
the static vendor-pattern table (`get_category_from_vendor`), though
implemented, is not consulted anywhere in the cascade. -/
theorem c2_ai_invoked_for_all_post_tier1_others :
    ∀ (llm : Option (String → Except String String)) (cacheKeys : List String)
      (rows : List CRow),
      (add_category llm rows cacheKeys).2
        = ((rows.map (fun r => tier1_payment (tier1_refund r))).filter
            (fun r => r.category == "Other")).map (fun r => r.merchant_name) := by
  intro llm cacheKeys rows
  unfold add_category
  exact aiPass_calls llm cacheKeys _

/-- C8: with `file_paths = ["fileA", "fileB", "fileC"]` where only
"fileA" is unreadable, `read_files` removes "fileA" from the aliased
`processed_files` list *while iterating it*, so the iterator skips
"fileB": it is never read (the successes are exactly ["fileC"]), yet it
remains in `processed_files` and is handed to `delete_processed_files`
after the successful batch — a file deleted without having been read or
persisted. -/
theorem c8_unread_file_deleted :
    read_files (fun s => !(s == "fileA")) ["fileA", "fileB", "fileC"]
      = (Except.ok ["fileC"], ["fileB", "fileC"])
    ∧ (process_transactions (fun s => !(s == "fileA")) (fun _ => [])
        emptyDB none ["fileA", "fileB", "fileC"]).2.2 = ["fileB", "fileC"]
    ∧ "fileB" ∈ (process_transactions (fun s => !(s == "fileA")) (fun _ => [])
        emptyDB none ["fileA", "fileB", "fileC"]).2.2 := by
  exact ⟨by decide, by decide, by decide⟩

/-- C9 (counterexample): in `main` all three sources sit inside one
`try`/`except`.  With Apple files `["a1"]` all unreadable and a Chase
file `["c1"]` readable, the Apple failure aborts the `try` and Chase is
never processed (completed sources = []), although the very same Chase
source completes on its own when Apple has no files — the failure of one
source does stop the processing of the remaining sources. -/
theorem c9_one_source_failure_stops_run_counterexample :
    (mainModel (fun s => s == "c1") (fun _ => []) emptyDB ["a1"] ["c1"] []).1 = []
    ∧ (mainModel (fun s => s == "c1") (fun _ => []) emptyDB [] ["c1"] []).1 = ["Chase"] := by
  exact ⟨by decide, by decide⟩

/-- C10 (counterexample): starting from the empty store, persisting
"COFFEE SHOP" under category "Dining" and then re-persisting the same
(date, merchant, amount, person, account type) under category "Other"
stores *two* rows: the unique constraint includes `category_id`
(spec §6), so rows agreeing on the claim's 5-tuple — transaction_date,
merchant_name, amount, person_id (both "Hector" → 0) and
account_type_id (both "Chase Card" → 0) — but with different
`category_id` do not conflict. -/
theorem c10_five_tuple_duplicated_counterexample :
    (add_to_database (add_to_database emptyDB
        [⟨(-10 : ℚ), "COFFEE SHOP", "Dining", "Hector", "2024-01-05", "Chase Card"⟩]
        none).2
      [⟨(-10 : ℚ), "COFFEE SHOP", "Other", "Hector", "2024-01-05", "Chase Card"⟩]
      none).2.transactions
      = [⟨(-10 : ℚ), "COFFEE SHOP", 0, 0, "2024-01-05", 0⟩,
         ⟨(-10 : ℚ), "COFFEE SHOP", 1, 0, "2024-01-05", 0⟩]
    ∧ (⟨(-10 : ℚ), "COFFEE SHOP", 0, 0, "2024-01-05", 0⟩ : TransactionRow)
        ≠ ⟨(-10 : ℚ), "COFFEE SHOP", 1, 0, "2024-01-05", 0⟩ := by
  exact ⟨by decide, by decide⟩

/-! ## Invariant machinery for the persistence layer -/

lemma cacheLookup_append (tbl : List (Nat × String)) (i : Nat) (nm k : String) :
    cacheLookup (tbl ++ [(i, nm)]) k
      = if pyLower nm == k then some i else cacheLookup tbl k := by
  unfold cacheLookup
  rw [List.reverse_append]
  simp only [List.reverse_cons, List.reverse_nil, List.nil_append, List.singleton_append]
  cases h : (pyLower nm == k) with
  | true => simp [List.find?_cons, h]
  | false => simp [List.find?_cons, h]

/-- The evolution order on stores during one batch: cache lookups that
succeed keep succeeding with the same id, and stored transaction rows
stay stored. -/
def dbLe (d1 d2 : Database) : Prop :=
  (∀ k i, cacheLookup d1.spending_categories k = some i →
    cacheLookup d2.spending_categories k = some i)
  ∧ (∀ k i, cacheLookup d1.persons k = some i → cacheLookup d2.persons k = some i)
  ∧ (∀ k i, cacheLookup d1.account_type k = some i →
      cacheLookup d2.account_type k = some i)
  ∧ (∀ r : TransactionRow, r ∈ d1.transactions → r ∈ d2.transactions)

lemma dbLe_refl (d : Database) : dbLe d d :=
  ⟨fun _ _ h => h, fun _ _ h => h, fun _ _ h => h, fun _ h => h⟩

lemma dbLe_trans {a b c : Database} (h1 : dbLe a b) (h2 : dbLe b c) : dbLe a c :=
  ⟨fun k i h => h2.1 k i (h1.1 k i h), fun k i h => h2.2.1 k i (h1.2.1 k i h),
   fun k i h => h2.2.2.1 k i (h1.2.2.1 k i h), fun r h => h2.2.2.2 r (h1.2.2.2 r h)⟩

lemma stored_mono {d1 d2 : Database} {t : TransactionIn}
    (hle : dbLe d1 d2) (h : stored d1 t) : stored d2 t := by
  obtain ⟨r, hres, hmem⟩ := h
  unfold resolved_row at hres
  split at hres
  · next cid pid aid h1 h2 h3 =>
    refine ⟨r, ?_, hle.2.2.2 r hmem⟩
    unfold resolved_row
    rw [hle.1 _ _ h1, hle.2.1 _ _ h2, hle.2.2.1 _ _ h3]
    exact hres
  · exact absurd hres (by simp)

lemma get_or_create_category_ok {f : Option Nat} {nm : String} {c c2 : Conn} {i : Nat}
    (h : get_or_create_category f nm c = Except.ok (i, c2)) :
    cacheLookup c2.db.spending_categories (pyLower nm) = some i
    ∧ (∀ k j, cacheLookup c.db.spending_categories k = some j →
        cacheLookup c2.db.spending_categories k = some j)
    ∧ c2.db.persons = c.db.persons
    ∧ c2.db.account_type = c.db.account_type
    ∧ c2.db.transactions = c.db.transactions := by
  unfold get_or_create_category at h
  split at h
  · next i0 hl =>
    injection h with h1
    injection h1 with hi hc
    subst hi; subst hc
    exact ⟨hl, fun k j hk => hk, rfl, rfl, rfl⟩
  · next hl =>
    unfold execOp at h
    split at h
    · rename_i c2x heq
      injection h with h1
      injection h1 with hi hc
      subst hi
      subst hc
      split at heq
      · exact absurd heq (by simp)
      · injection heq with hcx
        subst hcx
        refine ⟨?_, ?_, rfl, rfl, rfl⟩
        · show cacheLookup (c.db.spending_categories ++ [(c.db.next_category_id, nm)]) (pyLower nm)
            = some c.db.next_category_id
          rw [cacheLookup_append]
          simp
        · intro k j hk
          show cacheLookup (c.db.spending_categories ++ [(c.db.next_category_id, nm)]) k = some j
          rw [cacheLookup_append]
          cases hkey : (pyLower nm == k) with
          | true =>
            rw [eq_of_beq hkey] at hl
            rw [hl] at hk
            exact absurd hk (by simp)
          | false => simpa [hkey] using hk
    · exact absurd h (by simp)

lemma get_or_create_person_ok {f : Option Nat} {nm : String} {c c2 : Conn} {i : Nat}
    (h : get_or_create_person f nm c = Except.ok (i, c2)) :
    cacheLookup c2.db.persons (pyLower nm) = some i
    ∧ (∀ k j, cacheLookup c.db.persons k = some j →
        cacheLookup c2.db.persons k = some j)
    ∧ c2.db.spending_categories = c.db.spending_categories
    ∧ c2.db.account_type = c.db.account_type
    ∧ c2.db.transactions = c.db.transactions := by
  unfold get_or_create_person at h
  split at h
  · next i0 hl =>
    injection h with h1
    injection h1 with hi hc
    subst hi; subst hc
    exact ⟨hl, fun k j hk => hk, rfl, rfl, rfl⟩
  · next hl =>
    unfold execOp at h
    split at h
    · rename_i c2x heq
      injection h with h1
      injection h1 with hi hc
      subst hi
      subst hc
      split at heq
      · exact absurd heq (by simp)
      · injection heq with hcx
        subst hcx
        refine ⟨?_, ?_, rfl, rfl, rfl⟩
        · show cacheLookup (c.db.persons ++ [(c.db.next_person_id, nm)]) (pyLower nm)
            = some c.db.next_person_id
          rw [cacheLookup_append]
          simp
        · intro k j hk
          show cacheLookup (c.db.persons ++ [(c.db.next_person_id, nm)]) k = some j
          rw [cacheLookup_append]
          cases hkey : (pyLower nm == k) with
          | true =>
            rw [eq_of_beq hkey] at hl
            rw [hl] at hk
            exact absurd hk (by simp)
          | false => simpa [hkey] using hk
    · exact absurd h (by simp)

lemma get_or_create_account_type_ok {f : Option Nat} {nm : String} {c c2 : Conn} {i : Nat}
    (h : get_or_create_account_type f nm c = Except.ok (i, c2)) :
    cacheLookup c2.db.account_type (pyLower nm) = some i
    ∧ (∀ k j, cacheLookup c.db.account_type k = some j →
        cacheLookup c2.db.account_type k = some j)
    ∧ c2.db.spending_categories = c.db.spending_categories
    ∧ c2.db.persons = c.db.persons
    ∧ c2.db.transactions = c.db.transactions := by
  unfold get_or_create_account_type at h
  split at h
  · next i0 hl =>
    injection h with h1
    injection h1 with hi hc
    subst hi; subst hc
    exact ⟨hl, fun k j hk => hk, rfl, rfl, rfl⟩
  · next hl =>
    unfold execOp at h
    split at h
    · rename_i c2x heq
      injection h with h1
      injection h1 with hi hc
      subst hi
      subst hc
      split at heq
      · exact absurd heq (by simp)
      · injection heq with hcx
        subst hcx
        refine ⟨?_, ?_, rfl, rfl, rfl⟩
        · show cacheLookup (c.db.account_type ++ [(c.db.next_account_type_id, nm)]) (pyLower nm)
            = some c.db.next_account_type_id
          rw [cacheLookup_append]
          simp
        · intro k j hk
          show cacheLookup (c.db.account_type ++ [(c.db.next_account_type_id, nm)]) k = some j
          rw [cacheLookup_append]
          cases hkey : (pyLower nm == k) with
          | true =>
            rw [eq_of_beq hkey] at hl
            rw [hl] at hk
            exact absurd hk (by simp)
          | false => simpa [hkey] using hk
    · exact absurd h (by simp)

lemma insert_transaction_refs (row : TransactionRow) (db : Database) :
    (insert_transaction row db).spending_categories = db.spending_categories
    ∧ (insert_transaction row db).persons = db.persons
    ∧ (insert_transaction row db).account_type = db.account_type := by
  unfold insert_transaction
  split <;> exact ⟨rfl, rfl, rfl⟩

lemma insert_transaction_mem_self (row : TransactionRow) (db : Database) :
    row ∈ (insert_transaction row db).transactions := by
  unfold insert_transaction
  split
  · assumption
  · exact List.mem_append_right _ (List.mem_singleton.mpr rfl)

lemma insert_transaction_mem_mono {r : TransactionRow} {db : Database}
    (row : TransactionRow) (h : r ∈ db.transactions) :
    r ∈ (insert_transaction row db).transactions := by
  unfold insert_transaction
  split
  · exact h
  · exact List.mem_append_left _ h

lemma insert_transaction_txns_cases (row : TransactionRow) (db : Database) :
    (insert_transaction row db).transactions = db.transactions
    ∨ (row ∉ db.transactions
        ∧ (insert_transaction row db).transactions = db.transactions ++ [row]) := by
  unfold insert_transaction
  split
  · exact Or.inl rfl
  · next hnot => exact Or.inr ⟨hnot, rfl⟩

lemma insert_transaction_of_mem {row : TransactionRow} {db : Database}
    (h : row ∈ db.transactions) : insert_transaction row db = db := by
  unfold insert_transaction
  rw [if_pos h]

lemma process_one_ok {f : Option Nat} {t : TransactionIn} {c c2 : Conn}
    (h : process_one f t c = Except.ok c2) :
    dbLe c.db c2.db ∧ stored c2.db t
    ∧ (c2.db.transactions = c.db.transactions
        ∨ ∃ row, row ∉ c.db.transactions
            ∧ c2.db.transactions = c.db.transactions ++ [row]) := by
  unfold process_one at h
  split at h
  · exact absurd h (by simp)
  · rename_i cid c1 heq1
    split at h
    · exact absurd h (by simp)
    · rename_i pid cp heq2
      split at h
      · exact absurd h (by simp)
      · rename_i aid c3 heq3
        unfold execOp at h
        split at h
        · exact absurd h (by simp)
        · injection h with h1
          subst h1
          obtain g1 := get_or_create_category_ok heq1
          obtain g2 := get_or_create_person_ok heq2
          obtain g3 := get_or_create_account_type_ok heq3
          dsimp only
          obtain his := insert_transaction_refs
            ⟨t.amount, t.merchant_name, cid, pid, t.transaction_date, aid⟩ c3.db
          have hc2cats : (insert_transaction
              ⟨t.amount, t.merchant_name, cid, pid, t.transaction_date, aid⟩
              c3.db).spending_categories = c1.db.spending_categories := by
            rw [his.1, g3.2.2.1, g2.2.2.1]
          have hc2pers : (insert_transaction
              ⟨t.amount, t.merchant_name, cid, pid, t.transaction_date, aid⟩
              c3.db).persons = cp.db.persons := by
            rw [his.2.1, g3.2.2.2.1]
          have hc2acct : (insert_transaction
              ⟨t.amount, t.merchant_name, cid, pid, t.transaction_date, aid⟩
              c3.db).account_type = c3.db.account_type := his.2.2
          have htx3 : c3.db.transactions = c.db.transactions := by
            rw [g3.2.2.2.2, g2.2.2.2.2, g1.2.2.2.2]
          refine ⟨⟨?_, ?_, ?_, ?_⟩, ?_, ?_⟩
          · intro k j hk
            rw [hc2cats]
            exact g1.2.1 k j hk
          · intro k j hk
            rw [hc2pers]
            apply g2.2.1
            rw [g1.2.2.1]
            exact hk
          · intro k j hk
            rw [hc2acct]
            apply g3.2.1
            rw [g2.2.2.2.1, g1.2.2.2.1]
            exact hk
          · intro r hr
            apply insert_transaction_mem_mono
            rw [htx3]
            exact hr
          · refine ⟨⟨t.amount, t.merchant_name, cid, pid, t.transaction_date, aid⟩,
              ?_, insert_transaction_mem_self _ _⟩
            unfold resolved_row
            rw [hc2cats, hc2pers, hc2acct, g1.1, g2.1, g3.1]
          · rcases insert_transaction_txns_cases
                ⟨t.amount, t.merchant_name, cid, pid, t.transaction_date, aid⟩ c3.db
              with hcase | hcase
            · exact Or.inl (by rw [hcase, htx3])
            · right
              refine ⟨⟨t.amount, t.merchant_name, cid, pid, t.transaction_date, aid⟩,
                ?_, by rw [hcase.2, htx3]⟩
              have hnot := hcase.1
              rw [htx3] at hnot
              exact hnot

lemma nodup_append_singleton {l : List TransactionRow} {row : TransactionRow}
    (hn : l.Nodup) (hrow : row ∉ l) : (l ++ [row]).Nodup := by
  simp [List.nodup_append, hn, hrow]

lemma process_all_ok {f : Option Nat} {ts : List TransactionIn} :
    ∀ {c c2 : Conn}, process_all f ts c = Except.ok c2 →
      dbLe c.db c2.db ∧ (∀ t ∈ ts, stored c2.db t)
      ∧ (c.db.transactions.Nodup → c2.db.transactions.Nodup) := by
  induction ts with
  | nil =>
    intro c c2 h
    injection h with h1
    subst h1
    refine ⟨dbLe_refl _, ?_, fun hn => hn⟩
    intro t ht
    cases ht
  | cons t ts ih =>
    intro c c2 h
    unfold process_all at h
    split at h
    · exact absurd h (by simp)
    · rename_i c1 heq
      obtain ⟨hle1, hst1, hcase1⟩ := process_one_ok heq
      obtain ⟨hle2, hst2, hnd2⟩ := ih h
      refine ⟨dbLe_trans hle1 hle2, ?_, ?_⟩
      · intro u hu
        cases hu with
        | head => exact stored_mono hle2 hst1
        | tail _ hmem => exact hst2 u hmem
      · intro hn
        apply hnd2
        cases hcase1 with
        | inl he => rw [he]; exact hn
        | inr hex =>
          obtain ⟨row, hnot, he⟩ := hex
          rw [he]
          exact nodup_append_singleton hn hnot

/-- C5: for every store, batch and injected storage fault,
`add_to_database` either raises a wrapped `Database insertion error: ...`
with the committed store exactly as it was (the whole batch, reference
rows included, is rolled back and nothing of it is committed), or returns
True, in which case every transaction of the batch is stored (its
reference names resolve and its resolved row is in the table): the batch
commits together. -/
theorem c5_batch_atomicity :
    ∀ (db : Database) (ts : List TransactionIn) (failAt : Option Nat),
      ((add_to_database db ts failAt).2 = db
        ∧ ∃ cause, (add_to_database db ts failAt).1
            = Except.error ("Database insertion error: " ++ cause))
      ∨ ((add_to_database db ts failAt).1 = Except.ok true
        ∧ ∀ t ∈ ts, stored (add_to_database db ts failAt).2 t) := by
  intro db ts f
  rcases hbig : (((execOp f id ⟨db, 0⟩).bind (execOp f id)).bind (execOp f id)).bind
      (process_all f ts) with e | c
  · have hchar : add_to_database db ts f
        = (Except.error ("Database insertion error: " ++ e), db) := by
      unfold add_to_database
      rw [hbig]
    rw [hchar]
    exact Or.inl ⟨rfl, e, rfl⟩
  · have hchar : add_to_database db ts f = (Except.ok true, c.db) := by
      unfold add_to_database
      rw [hbig]
    rw [hchar]
    right
    refine ⟨rfl, ?_⟩
    intro t ht
    rcases h0 : execOp f id ⟨db, 0⟩ with e0 | c0
    · rw [h0] at hbig
      simp [Except.bind] at hbig
    · rw [h0] at hbig
      simp only [Except.bind] at hbig
      rcases h1 : execOp f id c0 with e1 | c1
      · rw [h1] at hbig
        simp [Except.bind] at hbig
      · rw [h1] at hbig
        simp only [Except.bind] at hbig
        rcases h2 : execOp f id c1 with e2 | c3
        · rw [h2] at hbig
          simp [Except.bind] at hbig
        · rw [h2] at hbig
          simp only [Except.bind] at hbig
          exact (process_all_ok hbig).2.1 t ht

lemma execOp_none_ok (eff : Database → Database) (c : Conn) :
    execOp none eff c = Except.ok ⟨eff c.db, c.ops + 1⟩ := rfl

lemma get_or_create_category_none_ok (nm : String) (c : Conn) :
    ∃ i c2, get_or_create_category none nm c = Except.ok (i, c2) := by
  unfold get_or_create_category
  split
  · exact ⟨_, _, rfl⟩
  · rw [execOp_none_ok]
    exact ⟨_, _, rfl⟩

lemma get_or_create_person_none_ok (nm : String) (c : Conn) :
    ∃ i c2, get_or_create_person none nm c = Except.ok (i, c2) := by
  unfold get_or_create_person
  split
  · exact ⟨_, _, rfl⟩
  · rw [execOp_none_ok]
    exact ⟨_, _, rfl⟩

lemma get_or_create_account_type_none_ok (nm : String) (c : Conn) :
    ∃ i c2, get_or_create_account_type none nm c = Except.ok (i, c2) := by
  unfold get_or_create_account_type
  split
  · exact ⟨_, _, rfl⟩
  · rw [execOp_none_ok]
    exact ⟨_, _, rfl⟩

lemma process_one_none_ok (t : TransactionIn) (c : Conn) :
    ∃ c2, process_one none t c = Except.ok c2 := by
  unfold process_one
  obtain ⟨i1, c1, h1⟩ := get_or_create_category_none_ok t.category c
  simp only [h1]
  obtain ⟨i2, cp, h2⟩ := get_or_create_person_none_ok t.person c1
  simp only [h2]
  obtain ⟨i3, c3, h3⟩ := get_or_create_account_type_none_ok t.account_type cp
  simp only [h3, execOp_none_ok]
  exact ⟨_, rfl⟩

lemma process_all_none_ok (ts : List TransactionIn) :
    ∀ c : Conn, ∃ c2, process_all none ts c = Except.ok c2 := by
  induction ts with
  | nil => exact fun c => ⟨c, rfl⟩
  | cons t ts ih =>
    intro c
    obtain ⟨c1, h1⟩ := process_one_none_ok t c
    obtain ⟨c2, h2⟩ := ih c1
    refine ⟨c2, ?_⟩
    unfold process_all
    rw [h1]
    exact h2

lemma get_or_create_category_hit (f : Option Nat) {nm : String} {c : Conn} {i : Nat}
    (h : cacheLookup c.db.spending_categories (pyLower nm) = some i) :
    get_or_create_category f nm c = Except.ok (i, c) := by
  unfold get_or_create_category
  rw [h]

lemma get_or_create_person_hit (f : Option Nat) {nm : String} {c : Conn} {i : Nat}
    (h : cacheLookup c.db.persons (pyLower nm) = some i) :
    get_or_create_person f nm c = Except.ok (i, c) := by
  unfold get_or_create_person
  rw [h]

lemma get_or_create_account_type_hit (f : Option Nat) {nm : String} {c : Conn} {i : Nat}
    (h : cacheLookup c.db.account_type (pyLower nm) = some i) :
    get_or_create_account_type f nm c = Except.ok (i, c) := by
  unfold get_or_create_account_type
  rw [h]

/-- Re-running one already-stored transaction with no fault injected
executes only the conflict-ignored INSERT: the pending store is
unchanged. -/
lemma process_one_stored {t : TransactionIn} {c : Conn} (h : stored c.db t) :
    process_one none t c = Except.ok ⟨c.db, c.ops + 1⟩ := by
  obtain ⟨r, hres, hmem⟩ := h
  unfold resolved_row at hres
  split at hres
  · rename_i cid pid aid h1 h2 h3
    injection hres with hr
    subst hr
    unfold process_one
    simp only [get_or_create_category_hit none h1, get_or_create_person_hit none h2,
      get_or_create_account_type_hit none h3, execOp_none_ok,
      insert_transaction_of_mem hmem]
  · exact absurd hres (by simp)

lemma process_all_stored {ts : List TransactionIn} :
    ∀ {c : Conn}, (∀ t ∈ ts, stored c.db t) →
      ∃ m, process_all none ts c = Except.ok ⟨c.db, m⟩ := by
  induction ts with
  | nil => exact fun {c} _ => ⟨c.ops, rfl⟩
  | cons t ts ih =>
    intro c h
    have h1 := process_one_stored (h t (List.mem_cons_self t ts))
    have h2 : ∀ u ∈ ts, stored (⟨c.db, c.ops + 1⟩ : Conn).db u := by
      intro u hu
      exact h u (List.mem_cons_of_mem t hu)
    obtain ⟨m, hm⟩ := ih h2
    refine ⟨m, ?_⟩
    unfold process_all
    rw [h1]
    exact hm

/-- C1: re-running `add_to_database` (with no storage fault) on the same
transaction list leaves the store exactly as after the first run — the
second run's inserts all hit the `unique_transaction` conflict and are
ignored, no error is raised (the call returns True again), and in
particular the stored row count is unchanged. -/
theorem c1_add_to_database_idempotent :
    ∀ (db : Database) (ts : List TransactionIn),
      (add_to_database (add_to_database db ts none).2 ts none).1 = Except.ok true
      ∧ (add_to_database (add_to_database db ts none).2 ts none).2
          = (add_to_database db ts none).2
      ∧ (add_to_database (add_to_database db ts none).2 ts none).2.transactions.length
          = (add_to_database db ts none).2.transactions.length := by
  intro db ts
  obtain ⟨c1, h1⟩ := process_all_none_ok ts ⟨db, 3⟩
  have hview : add_to_database db ts none
      = (match process_all none ts ⟨db, 3⟩ with
         | Except.ok c => (Except.ok true, c.db)
         | Except.error e => (Except.error ("Database insertion error: " ++ e), db)) := rfl
  have hadd1 : add_to_database db ts none = (Except.ok true, c1.db) := by
    rw [hview, h1]
  have hstored : ∀ t ∈ ts, stored c1.db t := (process_all_ok h1).2.1
  obtain ⟨m, h2⟩ := @process_all_stored ts ⟨c1.db, 3⟩ hstored
  have hview2 : add_to_database c1.db ts none
      = (match process_all none ts ⟨c1.db, 3⟩ with
         | Except.ok c => (Except.ok true, c.db)
         | Except.error e => (Except.error ("Database insertion error: " ++ e), c1.db)) := rfl
  have hadd2 : add_to_database c1.db ts none = (Except.ok true, c1.db) := by
    rw [hview2, h2]
  rw [hadd1]
  rw [hadd2]
  exact ⟨rfl, rfl, rfl⟩

lemma execOp_id_ok {f : Option Nat} {c c2 : Conn}
    (h : execOp f id c = Except.ok c2) : c2.db = c.db := by
  unfold execOp at h
  split at h
  · exact absurd h (by simp)
  · injection h with h1
    rw [← h1]
    rfl

/-- C10 (amended): the deduplication invariant the code actually
enforces is over the 6-tuple that includes `category_id`: whenever the
transactions table holds no duplicate (amount, merchant_name,
category_id, person_id, transaction_date, account_type_id) row, it still
holds none after any `add_to_database` call, with any storage fault
injected — conflicting inserts on the full tuple are dropped. -/
theorem c10_six_tuple_unique :
    ∀ (db : Database) (ts : List TransactionIn) (failAt : Option Nat),
      db.transactions.Nodup → (add_to_database db ts failAt).2.transactions.Nodup := by
  intro db ts f hn
  rcases hbig : (((execOp f id ⟨db, 0⟩).bind (execOp f id)).bind (execOp f id)).bind
      (process_all f ts) with e | c
  · have hchar : add_to_database db ts f
        = (Except.error ("Database insertion error: " ++ e), db) := by
      unfold add_to_database
      rw [hbig]
    rw [hchar]
    exact hn
  · have hchar : add_to_database db ts f = (Except.ok true, c.db) := by
      unfold add_to_database
      rw [hbig]
    rw [hchar]
    rcases h0 : execOp f id ⟨db, 0⟩ with e0 | c0
    · rw [h0] at hbig
      simp [Except.bind] at hbig
    · rw [h0] at hbig
      simp only [Except.bind] at hbig
      rcases h1 : execOp f id c0 with e1 | c1
      · rw [h1] at hbig
        simp [Except.bind] at hbig
      · rw [h1] at hbig
        simp only [Except.bind] at hbig
        rcases h2 : execOp f id c1 with e2 | c3
        · rw [h2] at hbig
          simp [Except.bind] at hbig
        · rw [h2] at hbig
          simp only [Except.bind] at hbig
          apply (process_all_ok hbig).2.2
          have hdb : c3.db = db := by
            rw [execOp_id_ok h2, execOp_id_ok h1, execOp_id_ok h0]
          rw [hdb]
          exact hn

/-- Witness for C10 (amended) at a concrete input: the empty store
satisfies the 6-tuple invariant, and it still holds after persisting one
concrete transaction. -/
theorem c10_six_tuple_unique_witness :
    emptyDB.transactions.Nodup
    ∧ (add_to_database emptyDB
        [⟨(-10 : ℚ), "COFFEE SHOP", "Dining", "Hector", "2024-01-05", "Chase Card"⟩]
        none).2.transactions.Nodup :=
  ⟨by decide, c10_six_tuple_unique emptyDB
    [⟨(-10 : ℚ), "COFFEE SHOP", "Dining", "Hector", "2024-01-05", "Chase Card"⟩]
    none (by decide)⟩

lemma pyListRemove_subset {x f : String} :
    ∀ {l : List String}, f ∈ pyListRemove x l → f ∈ l := by
  intro l
  induction l with
  | nil =>
    intro h
    simp [pyListRemove] at h
  | cons y t ih =>
    intro h
    unfold pyListRemove at h
    split at h
    · exact List.mem_cons_of_mem y h
    · rcases List.mem_cons.mp h with h1 | h2
      · rw [h1]
        exact List.mem_cons_self _ _
      · exact List.mem_cons_of_mem y (ih h2)

lemma read_files_loop_all_fail {readOk : String → Bool} :
    ∀ (fuel idx : Nat) (files got : List String),
      (∀ f ∈ files, readOk f = false) →
      (read_files_loop readOk fuel idx files got).2 = got := by
  intro fuel
  induction fuel with
  | zero => intro idx files got h; rfl
  | succ n ih =>
    intro idx files got h
    unfold read_files_loop
    cases hg : files.get? idx with
    | none => rfl
    | some f =>
      have hf : f ∈ files := List.get?_mem hg
      simp only [h f hf, Bool.false_eq_true, if_false]
      apply ih
      intro g hgm
      exact h g (pyListRemove_subset hgm)

lemma read_files_all_fail {readOk : String → Bool} {files : List String}
    (h : ∀ f ∈ files, readOk f = false) :
    (read_files readOk files).1 = Except.error "No valid files were read" := by
  have hl := @read_files_loop_all_fail readOk (files.length + 1) 0 files [] h
  simp only [read_files]
  rw [hl]
  simp

lemma process_transactions_all_fail {readOk : String → Bool}
    {prep : List String → List TransactionIn} {db : Database} {failAt : Option Nat}
    {files : List String} (h : ∀ f ∈ files, readOk f = false) :
    process_transactions readOk prep db failAt files
      = (Except.error "Transaction processing failed: No valid files were read",
         db, []) := by
  have hrf := read_files_all_fail h
  unfold process_transactions
  rcases hpair : read_files readOk files with ⟨res, proc⟩
  have hres : res = Except.error "No valid files were read" := by
    rw [hpair] at hrf
    exact hrf
  subst hres
  rfl

/-- C9 (amended): when every input file of the first (Apple) source
fails to read, its `read_files` raises `ValueError`, the wrapped failure
propagates out of `process_transactions`, and `main`'s single
`try`/`except` catches it after skipping the remaining issuer sources:
no source completes and the store is untouched.  The run itself
terminates normally (the handler only logs). -/
theorem c9_total_read_failure_skips_rest :
    ∀ (readOk : String → Bool) (prep : List String → List TransactionIn)
      (db : Database) (apple_files chase_files amex_files : List String),
      apple_files ≠ [] → (∀ f ∈ apple_files, readOk f = false) →
      mainModel readOk prep db apple_files chase_files amex_files = ([], db) := by
  intro readOk prep db apple chase amex hne hall
  have hie : apple.isEmpty = false := by
    cases apple with
    | nil => exact absurd rfl hne
    | cons a t => rfl
  unfold mainModel runSource
  simp only [hie, Bool.false_eq_true, if_false]
  rw [process_transactions_all_fail hall]
  rfl

/-- Witness for C9 (amended) at a concrete input: one unreadable Apple
file, one Chase file present; no source completes and the store is
returned unchanged. -/
theorem c9_total_read_failure_skips_rest_witness :
    (["appleA"] : List String) ≠ []
    ∧ (∀ f ∈ (["appleA"] : List String), (fun _ : String => false) f = false)
    ∧ mainModel (fun _ => false) (fun _ => []) emptyDB ["appleA"] ["chase1"] []
        = ([], emptyDB) :=
  ⟨by decide, by decide,
    c9_total_read_failure_skips_rest (fun _ => false) (fun _ => []) emptyDB
      ["appleA"] ["chase1"] [] (by decide) (by decide)⟩
